import Mathlib

/-!
Verification of the Hazon screenplay tool's Fountain parser/encoder
(`src/main/lib/fountain.ts`), layout estimator (`src/lib/pageCount.ts`)
and the editor's pagination (`src/components/ScriptEditor.tsx`),
shallowly embedded over `List Char` with JS semantics made explicit
(ASCII case mapping, JS `Math.round`/`Math.ceil` over ℚ, `||`-falsiness
of the empty string).
-/

namespace Hazon

/-- Strings are modelled as explicit character lists. -/
abbrev Str := List Char

/-- JS `\s` restricted to ASCII: space, tab, LF, VT, FF, CR. -/
def jsWs (c : Char) : Bool :=
  c == ' ' || c == '\t' || c == '\n' || c == Char.ofNat 11 || c == Char.ofNat 12 || c == '\r'

/-- JS regex `.` (no `s` flag): any character except a line terminator. -/
def dotAny (c : Char) : Bool :=
  !(c == '\n' || c == '\r')

/-- ASCII uppercase letter test, JS `[A-Z]`. -/
def upperAZ (c : Char) : Bool :=
  decide ('A' ≤ c) && decide (c ≤ 'Z')

/-- JS `[A-Z0-9 ]` character class of the CHARACTER pattern. -/
def upperDigitSpace (c : Char) : Bool :=
  upperAZ c || (decide ('0' ≤ c) && decide (c ≤ '9')) || c == ' '

/-- JS `[A-Za-z]`. -/
def asciiLetter (c : Char) : Bool :=
  upperAZ c || (decide ('a' ≤ c) && decide (c ≤ 'z'))

/-- JS `[A-Za-z\s]`, the TITLE_PAGE key character class. -/
def titleKeyClass (c : Char) : Bool :=
  asciiLetter c || jsWs c

/-- ASCII `String.prototype.toUpperCase`. -/
def toUpperStr (s : Str) : Str := s.map Char.toUpper

/-- ASCII `String.prototype.toLowerCase`. -/
def toLowerStr (s : Str) : Str := s.map Char.toLower

/-- JS `String.prototype.trim` (both ends, `\s`). -/
def trim (s : Str) : Str :=
  ((s.dropWhile jsWs).reverse.dropWhile jsWs).reverse

/-- Head-character test, JS `s.startsWith(c)` / regex `^c`. -/
def startsWithChar (c : Char) (s : Str) : Bool :=
  match s with
  | [] => false
  | x :: _ => x == c

/-- Last-character test, JS `s.endsWith(c)`. -/
def endsWithChar (c : Char) (s : Str) : Bool :=
  match s.reverse with
  | [] => false
  | x :: _ => x == c

/-- JS `text.split(/\r?\n/)`: a separator is `"\r\n"` or `"\n"`; a lone
`'\r'` is ordinary content. `""` splits to `[""]`. -/
def splitLines : Str → List Str
  | [] => [[]]
  | '\r' :: '\n' :: rest => [] :: splitLines rest
  | '\n' :: rest => [] :: splitLines rest
  | c :: rest =>
    match splitLines rest with
    | [] => [[c]]
    | l :: ls => (c :: l) :: ls

/-- Test for `PATTERNS.BLANK = /^\s*$/`: the whole string is whitespace. -/
def blank (s : Str) : Bool := s.all jsWs

/-- First alternative of `PATTERNS.SCENE_HEADING`: `^\.(?!\.)`. -/
def dotNotDotDot (s : Str) : Bool :=
  match s with
  | '.' :: rest => !(startsWithChar '.' rest)
  | _ => false

/-- Case-insensitive keyword prefix followed by `[.\s]`, for the second
alternative of `PATTERNS.SCENE_HEADING`. -/
def keywordThenSep (p : Str) (s : Str) : Bool :=
  let u := toUpperStr s
  p.isPrefixOf u &&
    (match u.drop p.length with
     | c :: _ => c == '.' || jsWs c
     | [] => false)

/-- Test for `PATTERNS.SCENE_HEADING = /^(\.(?!\.)|(?:INT|EXT|EST|INT\.\/EXT|I\/E)[.\s])/i`
as a test. -/
def sceneHeadingTest (s : Str) : Bool :=
  dotNotDotDot s
    || keywordThenSep ("INT".toList) s
    || keywordThenSep ("EXT".toList) s
    || keywordThenSep ("EST".toList) s
    || keywordThenSep ("INT./EXT".toList) s
    || keywordThenSep ("I/E".toList) s

/-- Tail of the CHARACTER pattern: `[A-Z0-9 ]*(?:\s*\(.*\))?$` with the
optional extension `\s*\(.*\)$` tried at every split point. -/
def charExtTest (s : Str) : Bool :=
  match s.dropWhile jsWs with
  | [] => false
  | c :: rest =>
    c == '(' &&
      (match rest.reverse with
       | [] => false
       | c2 :: midRev => c2 == ')' && midRev.all dotAny)

def charTail (l : Str) : Bool :=
  (l.isEmpty || charExtTest l) ||
    (match l with
     | [] => false
     | c :: r => upperDigitSpace c && charTail r)

/-- Test for `PATTERNS.CHARACTER = /^@|^[A-Z][A-Z0-9 ]*(?:\s*\(.*\))?$/` as a test. -/
def characterTest (s : Str) : Bool :=
  startsWithChar '@' s ||
    (match s with
     | [] => false
     | c :: rest => upperAZ c && charTail rest)

/-- Test for `PATTERNS.PARENTHETICAL = /^\s*\(.*\)\s*$/` as a test. -/
def parentheticalTest (s : Str) : Bool :=
  match s.dropWhile jsWs with
  | [] => false
  | c :: rest =>
    c == '(' &&
      (match rest.reverse.dropWhile jsWs with
       | [] => false
       | c2 :: midRev => c2 == ')' && midRev.all dotAny)

def transitionPhrases : List Str :=
  ["FADE OUT".toList, "CUT TO".toList, "DISSOLVE TO".toList,
   "SMASH CUT TO".toList, "MATCH CUT TO".toList]

/-- Test for `PATTERNS.TRANSITION = /^>|(?:FADE OUT|CUT TO|DISSOLVE TO|SMASH CUT TO|MATCH CUT TO)[:.]?\s*$/i`
as a test: a leading `>`, or (case-insensitively) one of the phrases,
optionally followed by one `:`/`.`, then trailing whitespace to the end;
the phrase alternative is unanchored at the start. -/
def transitionTest (s : Str) : Bool :=
  startsWithChar '>' s ||
    (let u := ((toUpperStr s).reverse.dropWhile jsWs).reverse
     transitionPhrases.any (fun p => p.isSuffixOf u) ||
       (match u.reverse with
        | [] => false
        | c :: r => (c == ':' || c == '.') && transitionPhrases.any (fun p => p.isSuffixOf r.reverse)))

/-- Match for `PATTERNS.TITLE_PAGE = /^([A-Za-z\s]+):\s*(.*)$/` with its two capture
groups: the key is the run before the first `:` (which must be nonempty and
inside `[A-Za-z\s]`), the value is the remainder with leading whitespace
stripped (and must contain no line terminator, or `(.*)$` cannot match). -/
def titlePageMatch (s : Str) : Option (Str × Str) :=
  match s.dropWhile (fun c => !(c == ':')) with
  | ':' :: rest =>
    let a := s.takeWhile (fun c => !(c == ':'))
    let v := rest.dropWhile jsWs
    if a ≠ [] && a.all titleKeyClass && v.all dotAny then some (a, v) else none
  | _ => none

def titlePageTest (s : Str) : Bool := (titlePageMatch s).isSome

/-- Effect of `PATTERNS.SCENE_NUMBER = /#([^#]+)#$/` used via `replace(_, '')`:
when the string ends in `#inner#` with `inner` nonempty and free of `#`,
that suffix is removed; otherwise the string is unchanged. -/
def removeSceneNumber (s : Str) : Str :=
  match s.reverse with
  | '#' :: restRev =>
    let innerRev := restRev.takeWhile (fun c => !(c == '#'))
    match restRev.dropWhile (fun c => !(c == '#')) with
    | '#' :: prefRev => if innerRev.isEmpty then s else prefRev.reverse
    | _ => s
  | _ => s

/-- The six Fountain line types (`LineType` in `shared/types`). -/
inductive LineType where
  | scene | action | character | parenthetical | dialogue | transition
deriving Repr, DecidableEq

/-- A screenplay line; the generated `id` is irrelevant to the properties
verified here and is omitted. -/
structure Line where
  type : LineType
  text : Str
deriving Repr, DecidableEq

/-- Decoder-side title-page metadata (`FountainMetadata`). -/
structure FountainMetadata where
  title : Option Str := none
  author : Option Str := none
  credit : Option Str := none
  draftDate : Option Str := none
  contact : Option Str := none
  copyright : Option Str := none
  notes : Option Str := none
deriving Repr, DecidableEq

/-- Check `Object.keys(metadata).length > 0`: some field has been assigned. -/
def keysNonempty (m : FountainMetadata) : Bool :=
  m.title.isSome || m.author.isSome || m.credit.isSome || m.draftDate.isSome ||
    m.contact.isSome || m.copyright.isSome || m.notes.isSome

/-- The `switch (key)` of the title-page phase: key is lowercased and
trimmed, value trimmed; unrecognized keys leave the metadata unchanged. -/
def applyTitleKey (m : FountainMetadata) (key value : Str) : FountainMetadata :=
  let k := trim (toLowerStr key)
  let v := trim value
  if k = "title".toList then { m with title := some v }
  else if k = "author".toList ∨ k = "authors".toList then { m with author := some v }
  else if k = "credit".toList then { m with credit := some v }
  else if k = "draft date".toList ∨ k = "date".toList then { m with draftDate := some v }
  else if k = "contact".toList then { m with contact := some v }
  else if k = "copyright".toList then { m with copyright := some v }
  else if k = "notes".toList then { m with notes := some v }
  else m

/-- Title-page loop of `parseFountain` (lines 73–124): returns the final
metadata and the raw lines left for the body phase.  On a blank line with
metadata already seen, the title page ends (consuming the blank) when the
next non-blank line is absent or fails `PATTERNS.TITLE_PAGE`; a non-blank
line failing `PATTERNS.TITLE_PAGE` ends the title page without being
consumed. -/
def titlePhase : List Str → FountainMetadata → FountainMetadata × List Str
  | [], m => (m, [])
  | l :: rest, m =>
    if blank l then
      if keysNonempty m &&
          (match rest.find? (fun x => !(blank x)) with
           | none => true
           | some nb => !(titlePageTest nb)) then
        (m, rest)
      else titlePhase rest m
    else
      match titlePageMatch l with
      | some (k, v) => titlePhase rest (applyTitleKey m k v)
      | none => (m, l :: rest)

/-- Result of classifying one body line: its type, stored text, and the
updated `(inDialogue, lastCharacterLine)` state. -/
structure ClassifyResult where
  type : LineType
  text : Str
  inDialogue : Bool
  lastCharacterLine : Bool
deriving Repr, DecidableEq

/-- Body-line classification of `parseFountain` (lines 139–186), for a
trimmed non-blank line `t`; `hasNext` is the lookahead
`rawLines.slice(i+1).findIndex(l => !BLANK.test(l)) !== -1`. -/
def classifyLine (t : Str) (inDialogue lastCharacterLine hasNext : Bool) : ClassifyResult :=
  let r : ClassifyResult :=
    if startsWithChar '.' t then
      ⟨LineType.scene, trim (t.drop 1), inDialogue, lastCharacterLine⟩
    else if startsWithChar '@' t then
      ⟨LineType.character, trim (t.drop 1), true, true⟩
    else if startsWithChar '>' t then
      ⟨LineType.transition, trim (t.drop 1), inDialogue, lastCharacterLine⟩
    else if startsWithChar '!' t then
      ⟨LineType.action, trim (t.drop 1), inDialogue, lastCharacterLine⟩
    else if sceneHeadingTest t then
      ⟨LineType.scene, trim (removeSceneNumber t), inDialogue, lastCharacterLine⟩
    else if lastCharacterLine && parentheticalTest t then
      ⟨LineType.parenthetical, t, inDialogue, lastCharacterLine⟩
    else if inDialogue && !(characterTest t) then
      ⟨LineType.dialogue, t, inDialogue, lastCharacterLine⟩
    else if transitionTest t then
      ⟨LineType.transition, t, inDialogue, lastCharacterLine⟩
    else if characterTest t && !inDialogue then
      if hasNext then ⟨LineType.character, t, true, true⟩
      else ⟨LineType.action, t, inDialogue, lastCharacterLine⟩
    else ⟨LineType.action, t, inDialogue, lastCharacterLine⟩
  if r.type ≠ LineType.character ∧ r.type ≠ LineType.parenthetical ∧ r.type ≠ LineType.dialogue then
    ⟨r.type, r.text, false, false⟩
  else if r.type = LineType.dialogue ∨ r.type = LineType.parenthetical then
    ⟨r.type, r.text, r.inDialogue, false⟩
  else r

/-- Body loop of `parseFountain` (lines 127–195): blank lines reset the
dialogue state and emit nothing; each non-blank line is classified and
emitted. -/
def bodyPhase : List Str → Bool → Bool → List Line
  | [], _, _ => []
  | l :: rest, inD, lastC =>
    let t := trim l
    if blank t then bodyPhase rest false false
    else
      let r := classifyLine t inD lastC (rest.any (fun x => !(blank x)))
      ⟨r.type, r.text⟩ :: bodyPhase rest r.inDialogue r.lastCharacterLine

/-- Model of the `CreateScriptInput` fields derived from the metadata. -/
structure CreateScriptInput where
  title : Str
  description : Str
  author : Option Str
deriving Repr, DecidableEq

structure ParseResult where
  script : CreateScriptInput
  lines : List Line
deriving Repr, DecidableEq

/-- JS `opt || dflt` where an empty string is falsy. -/
def jsOrElse (o : Option Str) (d : Str) : Str :=
  match o with
  | some s => if s.isEmpty then d else s
  | none => d

/-- Model of `parseFountain` (fountain.ts lines 62–204). -/
def parseFountain (input : Str) : ParseResult :=
  let rawLines := splitLines input
  let tp := titlePhase rawLines {}
  { script :=
      { title := jsOrElse tp.1.title ("Untitled".toList),
        description := jsOrElse tp.1.notes [],
        author := tp.1.author },
    lines := bodyPhase tp.2 false false }

/-- Model of `Script` as consumed by `exportToFountain`: `title`, optional
`author`/`logline`, and the line sequence. -/
structure Script where
  title : Str
  author : Option Str := none
  logline : Option Str := none
  lines : List Line
deriving Repr, DecidableEq

/-- The blank-separator decision of `exportToFountain` (lines 228–245),
given the previous emitted type and the current one. -/
def sepChain (lastType : LineType) (cur : LineType) : Bool :=
  if cur = LineType.scene ∨ lastType = LineType.scene then true
  else if cur = LineType.character ∧ lastType ≠ LineType.character then true
  else if lastType = LineType.dialogue ∧ cur ≠ LineType.parenthetical ∧ cur ≠ LineType.dialogue then
    true
  else if cur = LineType.transition ∨ lastType = LineType.transition then true
  else false

/-- Per-type formatting switch of `exportToFountain` (lines 247–301). -/
def formatLine (l : Line) : Str :=
  match l.type with
  | LineType.scene =>
    if !(sceneHeadingTest l.text) then '.' :: l.text
    else toUpperStr l.text
  | LineType.character => toUpperStr l.text
  | LineType.parenthetical =>
    let f1 := if !(startsWithChar '(' l.text) then '(' :: (l.text ++ [')']) else l.text
    if !(endsWithChar ')' f1) then f1.dropLast ++ [')'] else f1
  | LineType.dialogue => l.text
  | LineType.transition =>
    if !(transitionTest l.text) then '>' :: l.text
    else toUpperStr l.text
  | LineType.action =>
    if sceneHeadingTest l.text || characterTest l.text || transitionTest l.text then
      '!' :: l.text
    else l.text

/-- Body of the export loop: the strings pushed to `output` for the given
lines, starting from the given `lastType` (`none` = first line). -/
def exportBody : Option LineType → List Line → List Str
  | _, [] => []
  | lastType, l :: rest =>
    (match lastType with
     | none => []
     | some lt => if sepChain lt l.type then [([] : Str)] else []) ++
      (formatLine l :: exportBody (some l.type) rest)

/-- Model of `exportToFountain` (lines 209–308); the current date written on the
`Draft date:` line is passed in as `today`. -/
def exportToFountain (script : Script) (today : Str) : Str :=
  let titleLines : List Str :=
    ["Title: ".toList ++ script.title] ++
      (match script.author with
       | some a => if a.isEmpty then [] else ["Author: ".toList ++ a]
       | none => []) ++
      ["Draft date: ".toList ++ today] ++
      (match script.logline with
       | some lg => if lg.isEmpty then [] else ["Notes: ".toList ++ lg]
       | none => []) ++
      [[]]
  List.intercalate ['\n'] (titleLines ++ exportBody none script.lines)

structure ValidationResult where
  valid : Bool
  errors : List Str
deriving Repr, DecidableEq

/-- Model of `validateFountain` (lines 313–334). -/
def validateFountain (text : Str) : ValidationResult :=
  let lines := splitLines text
  let hasContent := lines.any (fun l => !((trim l).isEmpty))
  let errors : List Str := if hasContent then [] else ["Document is empty".toList]
  { valid := errors.isEmpty, errors := errors }

namespace PageCount

/-- Table `LINE_WEIGHTS` of `src/lib/pageCount.ts`. -/
def LINE_WEIGHTS : LineType → ℚ
  | LineType.scene => 2
  | LineType.action => 1
  | LineType.character => 3 / 2
  | LineType.parenthetical => 1 / 2
  | LineType.dialogue => 8 / 10
  | LineType.transition => 3 / 2

/-- Model of `Math.ceil(len / perLine) || 1`. -/
def wrapFactor (len perLine : ℕ) : ℚ :=
  let c : ℤ := ⌈(len : ℚ) / (perLine : ℚ)⌉
  if c = 0 then 1 else (c : ℚ)

/-- One line's contribution to `weightedLines` in `calculatePageStats`. -/
def lineWeighted (l : Line) : ℚ :=
  let weight := LINE_WEIGHTS l.type
  if l.type = LineType.action then wrapFactor l.text.length 60 * weight
  else if l.type = LineType.dialogue then wrapFactor l.text.length 35 * weight
  else weight

/-- Word count `content.trim().split(/\s+/).filter(w => w.length > 0).length`: the
number of maximal whitespace-free runs. -/
def splitOnWs : Str → List Str
  | [] => [[]]
  | c :: rest =>
    if jsWs c then [] :: splitOnWs rest
    else
      match splitOnWs rest with
      | [] => [[c]]
      | l :: ls => (c :: l) :: ls

def countWords (s : Str) : ℕ :=
  ((splitOnWs (trim s)).filter (fun w => !w.isEmpty)).length

/-- JS `Math.round` over ℚ (round half toward +∞). -/
def jsRound (x : ℚ) : ℤ := ⌊x + 1 / 2⌋

structure PageStats where
  pageCount : ℚ
  estimatedMinutes : ℤ
  lineCount : ℕ
  wordCount : ℕ
deriving Repr, DecidableEq

def LINES_PER_PAGE : ℚ := 55

/-- Model of `calculatePageStats` (pageCount.ts lines 30–69). -/
def calculatePageStats (lines : List Line) : PageStats :=
  if lines.isEmpty then ⟨0, 0, 0, 0⟩
  else
    let weightedLines := (lines.map lineWeighted).sum
    let pageCount : ℚ := max 1 ((jsRound (weightedLines / LINES_PER_PAGE * 10) : ℚ) / 10)
    { pageCount := pageCount,
      estimatedMinutes := jsRound pageCount,
      lineCount := lines.length,
      wordCount := (lines.map (fun l => countWords l.text)).sum }

end PageCount

namespace ScriptEditor

/-- Table `LINE_WEIGHTS` of `src/components/ScriptEditor.tsx` — note `dialogue`
and `transition` differ from the `pageCount.ts` table. -/
def LINE_WEIGHTS : LineType → ℚ
  | LineType.scene => 2
  | LineType.action => 1
  | LineType.character => 3 / 2
  | LineType.parenthetical => 1 / 2
  | LineType.dialogue => 1
  | LineType.transition => 2

/-- One line's weight in the editor's pagination loops. -/
def lineWeighted (l : Line) : ℚ :=
  let w := LINE_WEIGHTS l.type
  if l.type = LineType.action then w * PageCount.wrapFactor l.text.length 60
  else if l.type = LineType.dialogue then w * PageCount.wrapFactor l.text.length 35
  else w

def LINES_PER_PAGE : ℚ := 55

def calculatePageBreaksAux : List Line → ℕ → ℚ → List ℕ
  | [], _, _ => []
  | l :: rest, i, acc =>
    let acc' := acc + lineWeighted l
    if LINES_PER_PAGE ≤ acc' then i :: calculatePageBreaksAux rest (i + 1) 0
    else calculatePageBreaksAux rest (i + 1) acc'

/-- Model of `calculatePageBreaks` (ScriptEditor.tsx lines 120–150). -/
def calculatePageBreaks (lines : List Line) : List ℕ :=
  calculatePageBreaksAux lines 0 0

def getSceneListAux : List Line → ℕ → ℚ → ℕ → List (ℕ × Str × ℕ)
  | [], _, _, _ => []
  | l :: rest, i, acc, page =>
    let acc' := acc + lineWeighted l
    let stepped : ℚ × ℕ := if LINES_PER_PAGE ≤ acc' then (0, page + 1) else (acc', page)
    (if l.type = LineType.scene ∧ ¬(trim l.text).isEmpty then [(i, l.text, stepped.2)] else []) ++
      getSceneListAux rest (i + 1) stepped.1 stepped.2

/-- Model of `getSceneList` (ScriptEditor.tsx lines 153–184). -/
def getSceneList (lines : List Line) : List (ℕ × Str × ℕ) :=
  getSceneListAux lines 0 0 1

end ScriptEditor

/-- Specification-side weight table, stated from the spec's words:
`scene=2, action=1, character=1.5, parenthetical=0.5, dialogue=0.8,
transition=1.5`. -/
def specBaseWeight : LineType → ℚ
  | LineType.scene => 2
  | LineType.action => 1
  | LineType.character => 3 / 2
  | LineType.parenthetical => 1 / 2
  | LineType.dialogue => 8 / 10
  | LineType.transition => 3 / 2

/-- Specification-side per-line weight: the base weight, multiplied for
`action` by `ceil(len/60)` (minimum 1) and for `dialogue` by
`ceil(len/35)` (minimum 1); other types uncorrected. -/
def specLineWeight (l : Line) : ℚ :=
  specBaseWeight l.type *
    (match l.type with
     | LineType.action => ((max 1 ⌈(l.text.length : ℚ) / 60⌉ : ℤ) : ℚ)
     | LineType.dialogue => ((max 1 ⌈(l.text.length : ℚ) / 35⌉ : ℤ) : ℚ)
     | _ => 1)

/-- Round to one decimal place (half up, as JS `Math.round(x*10)/10`). -/
def specRound1 (x : ℚ) : ℚ := (⌊x * 10 + 1 / 2⌋ : ℚ) / 10

/-- Specification-side page count for a nonempty line list: sum of
per-line weights, divided by 55, rounded to one decimal place, floored
at 1. -/
def specPageCount (lines : List Line) : ℚ :=
  max 1 (specRound1 ((lines.map specLineWeight).sum / 55))

/-- Specification-side separator predicate of the encoder, stated from the
spec's words as one disjunction. -/
def sepSpec (prev cur : LineType) : Bool :=
  decide (cur = LineType.scene ∨ prev = LineType.scene ∨
    (cur = LineType.character ∧ prev ≠ LineType.character) ∨
    (prev = LineType.dialogue ∧ cur ≠ LineType.dialogue ∧ cur ≠ LineType.parenthetical) ∨
    cur = LineType.transition ∨ prev = LineType.transition)

/-- Specification-side export body: exactly one blank separator before a
line iff it is not the first and `sepSpec` holds of the adjacent types. -/
def exportBodySpec : Option LineType → List Line → List Str
  | _, [] => []
  | prev, l :: rest =>
    (match prev with
     | none => ([] : List Str)
     | some p => if sepSpec p l.type then [([] : Str)] else []) ++
      (formatLine l :: exportBodySpec (some l.type) rest)

/-- The editor's pagination loop run with the shared `pageCount.ts`
weighting table instead of the editor's own — the comparison object for
the page-number-agreement claim. -/
def sharedWeightPageBreaksAux : List Line → ℕ → ℚ → List ℕ
  | [], _, _ => []
  | l :: rest, i, acc =>
    let acc' := acc + PageCount.lineWeighted l
    if ScriptEditor.LINES_PER_PAGE ≤ acc' then i :: sharedWeightPageBreaksAux rest (i + 1) 0
    else sharedWeightPageBreaksAux rest (i + 1) acc'

def sharedWeightPageBreaks (lines : List Line) : List ℕ :=
  sharedWeightPageBreaksAux lines 0 0

example : blank ("  \t ".toList) = true := by decide
example : blank ("".toList) = true := by decide
example : sceneHeadingTest ("INT. OFFICE - DAY".toList) = true := by decide
example : sceneHeadingTest ("int. office".toList) = true := by decide
example : sceneHeadingTest (".FLASHBACK".toList) = true := by decide
example : sceneHeadingTest ("..FLASHBACK".toList) = false := by decide
example : characterTest ("JOHN".toList) = true := by decide
example : characterTest ("JOHN (V.O.)".toList) = true := by decide
example : characterTest ("John".toList) = false := by decide
example : parentheticalTest ("(whispering)".toList) = true := by decide
example : transitionTest ("CUT TO:".toList) = true := by decide
example : transitionTest ("SMASH CUT TO:  ".toList) = true := by decide
example : transitionTest ("Hello there".toList) = false := by decide
example : titlePageTest ("Title: My Screenplay".toList) = true := by decide
example : titlePageTest ("FADE IN:".toList) = true := by decide
example : titlePageTest ("Some action.".toList) = false := by decide
example : removeSceneNumber ("INT. HOUSE #1#".toList) = "INT. HOUSE ".toList := by decide
example : splitLines ("a\r\nb\nc".toList) = ["a".toList, "b".toList, "c".toList] := by decide
example : trim ("  hi \t".toList) = "hi".toList := by decide

example :
    (parseFountain ("INT. COFFEE SHOP - DAY\n\nAction text here.".toList)).lines =
      [⟨LineType.scene, "INT. COFFEE SHOP - DAY".toList⟩,
       ⟨LineType.action, "Action text here.".toList⟩] := by decide

example :
    (parseFountain (".FLASHBACK - CHILDHOOD HOME".toList)).lines =
      [⟨LineType.scene, "FLASHBACK - CHILDHOOD HOME".toList⟩] := by decide

example :
    (parseFountain ("JOHN\nHello there!".toList)).lines =
      [⟨LineType.character, "JOHN".toList⟩, ⟨LineType.dialogue, "Hello there!".toList⟩] := by
  decide

example :
    (parseFountain ("JOHN\n(whispering)\nHello there!".toList)).lines =
      [⟨LineType.character, "JOHN".toList⟩, ⟨LineType.parenthetical, "(whispering)".toList⟩,
       ⟨LineType.dialogue, "Hello there!".toList⟩] := by decide

example :
    (parseFountain (">INTERCUT WITH:".toList)).lines =
      [⟨LineType.transition, "INTERCUT WITH:".toList⟩] := by decide

example :
    (parseFountain ("Title: My Screenplay\nAuthor: John Doe\nDraft date: 2024-01-01\n\nFADE IN:".toList)).script =
      ⟨"My Screenplay".toList, [], some ("John Doe".toList)⟩ := by decide

example : (parseFountain ("Some action.".toList)).script.title = "Untitled".toList := by decide

/-! ### Helper lemmas -/

lemma all_dropWhile (p : Char → Bool) (l : Str) : (l.dropWhile p).all p = l.all p := by
  induction l with
  | nil => rfl
  | cons c rest ih =>
    by_cases h : p c = true
    · simp [List.dropWhile_cons, h, ih, List.all_cons]
    · simp [List.dropWhile_cons, h]

lemma blank_trim (l : Str) : blank (trim l) = blank l := by
  simp [blank, trim, List.all_reverse, all_dropWhile]

lemma blank_eq_not_any (l : Str) : blank l = !(l.any fun c => !(jsWs c)) := by
  simp [blank, List.all_eq_not_any_not]

lemma trim_eq_nil_iff (l : Str) : trim l = [] ↔ l.all jsWs = true := by
  constructor
  · intro h
    rw [trim, List.reverse_eq_nil_iff, List.dropWhile_eq_nil_iff] at h
    have h2 : ((l.dropWhile jsWs).reverse.all jsWs) = true := by
      rw [List.all_eq_true]; intro x hx; exact h x hx
    rw [List.all_reverse, all_dropWhile] at h2
    exact h2
  · intro h
    have h2 : l.dropWhile jsWs = [] := by
      rw [List.dropWhile_eq_nil_iff]; intro x hx; exact (List.all_eq_true.mp h) x hx
    simp [trim, h2]

lemma trim_isEmpty_eq_blank (l : Str) : (trim l).isEmpty = blank l := by
  cases hb : blank l with
  | false =>
    cases htr : trim l with
    | nil =>
      have := (trim_eq_nil_iff l).mp htr
      rw [blank] at hb
      rw [hb] at this
      exact absurd this (by simp)
    | cons c r => rfl
  | true =>
    have := (trim_eq_nil_iff l).mpr (by simpa [blank] using hb)
    rw [this]; rfl

lemma splitLines_ne_nil (s : Str) : splitLines s ≠ [] := by
  induction s using splitLines.induct with
  | case1 => simp [splitLines]
  | case2 rest ih => simp [splitLines]
  | case3 rest ih => simp [splitLines]
  | case4 c rest h1 h2 hnil ih => simp [splitLines, hnil]
  | case5 c rest h1 h2 l ls heq ih => simp [splitLines, heq]

lemma splitLines_any (s : Str) :
    (splitLines s).any (fun l => l.any (fun c => !(jsWs c))) = s.any (fun c => !(jsWs c)) := by
  induction s using splitLines.induct with
  | case1 => simp [splitLines]
  | case2 rest ih =>
    simp [splitLines, List.any_cons, ih, show jsWs '\r' = true from rfl,
      show jsWs '\n' = true from rfl]
  | case3 rest ih =>
    simp [splitLines, List.any_cons, ih, show jsWs '\n' = true from rfl]
  | case4 c rest h1 h2 hnil ih => exact absurd hnil (splitLines_ne_nil rest)
  | case5 c rest h1 h2 l ls heq ih =>
    simp only [splitLines, heq, List.any_cons]
    rw [heq] at ih
    simp only [List.any_cons] at ih
    rw [← ih, Bool.or_assoc]

lemma upperAZ_not_jsWs (c : Char) (h : upperAZ c = true) : jsWs c = false := by
  by_contra hne
  have hw : jsWs c = true := by revert hne; cases jsWs c <;> simp
  simp only [jsWs, Bool.or_eq_true, beq_iff_eq] at hw
  rcases hw with ((((rfl | rfl) | rfl) | rfl) | rfl) | rfl <;> exact absurd h (by decide)

lemma upperAZ_not_lparen (c : Char) (h : upperAZ c = true) : (c == '(') = false := by
  by_contra hne
  have hw : (c == '(') = true := by revert hne; cases c == '(' <;> simp
  rw [beq_iff_eq] at hw
  subst hw
  exact absurd h (by decide)

lemma characterTest_not_parenthetical (t : Str) (hat : startsWithChar '@' t = false)
    (h : characterTest t = true) : parentheticalTest t = false := by
  cases t with
  | nil => exact absurd h (by decide)
  | cons c rest =>
    rw [show characterTest (c :: rest) =
          (startsWithChar '@' (c :: rest) || (upperAZ c && charTail rest)) from rfl,
        hat] at h
    simp only [Bool.false_or, Bool.and_eq_true] at h
    obtain ⟨h1, _⟩ := h
    have hw := upperAZ_not_jsWs c h1
    have hp := upperAZ_not_lparen c h1
    simp [parentheticalTest, List.dropWhile_cons, hw, hp]

lemma bodyPhase_length (ls : List Str) :
    ∀ (inD lastC : Bool),
      (bodyPhase ls inD lastC).length = ls.countP (fun l => l.any (fun c => !(jsWs c))) := by
  induction ls with
  | nil => intro _ _; simp [bodyPhase]
  | cons l rest ih =>
    intro inD lastC
    have hbt : blank (trim l) = !(l.any fun c => !(jsWs c)) := by
      rw [blank_trim, blank_eq_not_any]
    cases ha : (l.any fun c => !(jsWs c)) with
    | true =>
      rw [ha] at hbt
      simp only [bodyPhase, hbt, Bool.not_true, List.countP_cons, ha, if_true,
        Bool.false_eq_true, if_false, List.length_cons, ih]
    | false =>
      rw [ha] at hbt
      simp only [bodyPhase, hbt, Bool.not_false, List.countP_cons, ha, if_true,
        Bool.false_eq_true, if_false, ih]
      all_goals omega

lemma wrapFactor_eq_max (len w : ℕ) :
    PageCount.wrapFactor len w = ((max 1 ⌈(len : ℚ) / (w : ℚ)⌉ : ℤ) : ℚ) := by
  unfold PageCount.wrapFactor
  have hnn : 0 ≤ ⌈(len : ℚ) / (w : ℚ)⌉ := Int.ceil_nonneg (by positivity)
  by_cases h : ⌈(len : ℚ) / (w : ℚ)⌉ = 0
  · simp [h]
  · have hmax : max 1 ⌈(len : ℚ) / (w : ℚ)⌉ = ⌈(len : ℚ) / (w : ℚ)⌉ :=
      max_eq_right (by omega)
    simp [h, hmax]

lemma lineWeighted_eq_spec (l : Line) : PageCount.lineWeighted l = specLineWeight l := by
  obtain ⟨ty, tx⟩ := l
  cases ty <;>
    simp [PageCount.lineWeighted, specLineWeight, specBaseWeight, PageCount.LINE_WEIGHTS,
      wrapFactor_eq_max, mul_comm]

lemma sepChain_eq_sepSpec : ∀ p c, sepChain p c = sepSpec p c := by
  intro p c
  cases p <;> cases c <;> decide

lemma endsWithChar_concat (c : Char) (l : Str) : endsWithChar c (l ++ [c]) = true := by
  unfold endsWithChar
  rw [List.reverse_append]
  simp

/-! ### Claim theorems -/

/-- C1. For every list of Lines, `calculatePageStats` returns
`pageCount` 0 on the empty list, and otherwise the sum of per-line
weights (scene=2, action=1, character=1.5, parenthetical=0.5,
dialogue=0.8, transition=1.5; action multiplied by `ceil(len/60)` min 1,
dialogue by `ceil(len/35)` min 1, others uncorrected) divided by 55,
rounded to one decimal place, floored at 1. -/
theorem pageStats_pageCount_formula (lines : List Line) :
    (PageCount.calculatePageStats lines).pageCount =
      if lines = [] then 0 else specPageCount lines := by
  by_cases h : lines = []
  · subst h; simp [PageCount.calculatePageStats]
  · have hne : lines.isEmpty = false := by simpa [List.isEmpty_iff] using h
    have hmap : List.map PageCount.lineWeighted lines = List.map specLineWeight lines :=
      List.map_congr_left (fun l _ => lineWeighted_eq_spec l)
    simp only [PageCount.calculatePageStats, hne, Bool.false_eq_true, if_false, h,
      specPageCount, specRound1, PageCount.jsRound, PageCount.LINES_PER_PAGE, hmap]

/-- C2 counterexample. A `"FADE IN:"` line after the title page's
terminating blank line matches the `key: value` title-page syntax and is
consumed by the title-page phase: it does not yield a Line, contrary to
the claim. -/
theorem titlePage_swallows_fadein :
    (parseFountain ("Title: X\n\nFADE IN:\n\nSome action.".toList)).lines =
      [⟨LineType.action, "Some action.".toList⟩] := by decide

/-- C2 amended. Once the title-page phase (as implemented: it
consumes `key: value`-shaped lines whether or not the key is recognized)
ends, `parseFountain` emits exactly one Line per remaining raw line that
contains a non-whitespace character, and none for whitespace-only
lines. -/
theorem parse_body_line_count (input : Str) :
    ((parseFountain input).lines).length =
      (titlePhase (splitLines input) {}).2.countP (fun l => l.any (fun c => !(jsWs c))) := by
  simp only [parseFountain]
  exact bodyPhase_length _ false false

/-- C3 counterexample. The editor's weight table is not identical
to the shared layout estimator's: they disagree at `dialogue`, and on a
single 1925-character dialogue line (wrap factor 55) the editor's
pagination loop breaks a page while the same loop with the shared table
does not. -/
theorem editor_weight_table_differs :
    ScriptEditor.LINE_WEIGHTS LineType.dialogue ≠ PageCount.LINE_WEIGHTS LineType.dialogue ∧
      ScriptEditor.calculatePageBreaks [⟨LineType.dialogue, List.replicate 1925 'a'⟩] = [0] ∧
      sharedWeightPageBreaks [⟨LineType.dialogue, List.replicate 1925 'a'⟩] = [] := by
  have hwf : PageCount.wrapFactor 1925 35 = 55 := by
    unfold PageCount.wrapFactor
    rw [show ((1925 : ℕ) : ℚ) / ((35 : ℕ) : ℚ) = ((55 : ℤ) : ℚ) by norm_num, Int.ceil_intCast]
    norm_num
  have e1 : ScriptEditor.lineWeighted ⟨LineType.dialogue, List.replicate 1925 'a'⟩ = 55 := by
    simp only [ScriptEditor.lineWeighted]
    rw [if_neg (by decide : ¬(LineType.dialogue = LineType.action)), if_pos trivial,
      List.length_replicate, hwf]
    norm_num [ScriptEditor.LINE_WEIGHTS]
  have e2 : PageCount.lineWeighted ⟨LineType.dialogue, List.replicate 1925 'a'⟩ = 44 := by
    simp only [PageCount.lineWeighted]
    rw [if_neg (by decide : ¬(LineType.dialogue = LineType.action)), if_pos trivial,
      List.length_replicate, hwf]
    norm_num [PageCount.LINE_WEIGHTS]
  refine ⟨by norm_num [ScriptEditor.LINE_WEIGHTS, PageCount.LINE_WEIGHTS], ?_, ?_⟩
  · simp only [ScriptEditor.calculatePageBreaks, ScriptEditor.calculatePageBreaksAux, e1]
    rw [if_pos (by norm_num [ScriptEditor.LINES_PER_PAGE])]
  · simp only [sharedWeightPageBreaks, sharedWeightPageBreaksAux, e2]
    rw [if_neg (by norm_num [ScriptEditor.LINES_PER_PAGE])]

/-- C3 amended. The two tables agree on `scene`, `action`,
`character` and `parenthetical` but differ on `dialogue` (editor 1 vs
shared 0.8) and `transition` (editor 2 vs shared 1.5); consequently the
editor's pagination and the same loop with the shared table need not
assign the same page breaks (witnessed in the counterexample). -/
theorem weight_tables_agreement_and_divergence :
    ScriptEditor.LINE_WEIGHTS LineType.scene = PageCount.LINE_WEIGHTS LineType.scene ∧
      ScriptEditor.LINE_WEIGHTS LineType.action = PageCount.LINE_WEIGHTS LineType.action ∧
      ScriptEditor.LINE_WEIGHTS LineType.character = PageCount.LINE_WEIGHTS LineType.character ∧
      ScriptEditor.LINE_WEIGHTS LineType.parenthetical
        = PageCount.LINE_WEIGHTS LineType.parenthetical ∧
      ScriptEditor.LINE_WEIGHTS LineType.dialogue = 1 ∧
      PageCount.LINE_WEIGHTS LineType.dialogue = 8 / 10 ∧
      ScriptEditor.LINE_WEIGHTS LineType.transition = 2 ∧
      PageCount.LINE_WEIGHTS LineType.transition = 3 / 2 := by
  refine ⟨?_, ?_, ?_, ?_, ?_, ?_, ?_, ?_⟩ <;>
    norm_num [ScriptEditor.LINE_WEIGHTS, PageCount.LINE_WEIGHTS]

/-- C4 code bug, evaluated at the failing input. Decoding
`".flashback home"` yields a scene line with lowercase text, and
re-encoding emits it with a forcing `.` prefix but WITHOUT uppercasing,
contradicting the claim that every scene heading appears uppercased in
the output. -/
theorem forced_scene_export_not_uppercased :
    (parseFountain (".flashback home".toList)).lines =
        [⟨LineType.scene, "flashback home".toList⟩] ∧
      formatLine ⟨LineType.scene, "flashback home".toList⟩ = ".flashback home".toList ∧
      exportToFountain ⟨"Untitled".toList, none, none,
          (parseFountain (".flashback home".toList)).lines⟩ ("01/01/2026".toList) =
        "Title: Untitled\nDraft date: 01/01/2026\n\n.flashback home".toList ∧
      ".flashback home".toList ≠ toUpperStr (".flashback home".toList) := by
  refine ⟨by decide, by decide, by decide, by decide⟩

/-- C5. A trimmed line passing the ALL-CAPS character pattern, with
no forcing prefix, not a scene heading, not a transition, classified
while not inside a dialogue block, is typed `character` iff some
subsequent non-blank raw line exists (`hasNext`), and `action` when none
does. -/
theorem character_cue_promotion_iff_lookahead (t : Str) (lastC hasNext : Bool)
    (hchar : characterTest t = true)
    (hdot : startsWithChar '.' t = false) (hat : startsWithChar '@' t = false)
    (hgt : startsWithChar '>' t = false) (hbang : startsWithChar '!' t = false)
    (hscene : sceneHeadingTest t = false) (htrans : transitionTest t = false) :
    ((classifyLine t false lastC hasNext).type = LineType.character ↔ hasNext = true) ∧
      (hasNext = false → (classifyLine t false lastC hasNext).type = LineType.action) := by
  have hpar := characterTest_not_parenthetical t hat hchar
  unfold classifyLine
  simp only [hdot, hat, hgt, hbang, hscene, htrans, hpar, hchar]
  cases hasNext <;> simp

/-- Witness for C5 at `t = "JOHN"`. -/
theorem character_cue_promotion_iff_lookahead_witness :
    (classifyLine ("JOHN".toList) false false true).type = LineType.character ∧
      (classifyLine ("JOHN".toList) false false false).type = LineType.action := by
  constructor
  · exact (character_cue_promotion_iff_lookahead ("JOHN".toList) false true (by decide)
      (by decide) (by decide) (by decide) (by decide) (by decide) (by decide)).1.mpr rfl
  · exact (character_cue_promotion_iff_lookahead ("JOHN".toList) false false (by decide)
      (by decide) (by decide) (by decide) (by decide) (by decide) (by decide)).2 rfl

/-- C6. The export body inserts exactly one blank separator line
before a line iff it is not the first and one of the spec's four
conditions relates it to the previous type (no separator between
character→dialogue or dialogue→parenthetical, as `sepSpec` shows). -/
theorem export_separator_iff (prev : Option LineType) (lines : List Line) :
    exportBody prev lines = exportBodySpec prev lines := by
  induction lines generalizing prev with
  | nil => cases prev <;> rfl
  | cons l rest ih =>
    cases prev with
    | none => simp [exportBody, exportBodySpec, ih]
    | some p => simp [exportBody, exportBodySpec, ih, sepChain_eq_sepSpec]

/-- C7 code bug, evaluated at the failing input. A line starting with
`..` IS classified as a forced scene by the code (`FORCED_SCENE = /^\./`
lacks the `(?!\.)` guard present in `SCENE_HEADING`), contradicting the
claim/spec rule that `..` lines are not forced scenes. -/
theorem double_dot_forced_scene_eval :
    (['.', '.'] : Str).isPrefixOf ("..and then".toList) = true ∧
      (parseFountain ("..and then".toList)).lines = [⟨LineType.scene, ".and then".toList⟩] := by
  refine ⟨by decide, by decide⟩

/-- C8 counterexample. On the already-malformed text `"("` the
parenthetical repair emits `")"`, which does not start with `(`. -/
theorem parenthetical_repair_lparen_counterexample :
    formatLine ⟨LineType.parenthetical, "(".toList⟩ = ")".toList ∧
      startsWithChar '(' (formatLine ⟨LineType.parenthetical, "(".toList⟩) = false := by
  refine ⟨by decide, by decide⟩

/-- C8 amended. The emitted parenthetical line always ends with
`)` and, for every text except the single character `"("`, starts with
`(`. -/
theorem parenthetical_repair_wraps (text : Str) :
    endsWithChar ')' (formatLine ⟨LineType.parenthetical, text⟩) = true ∧
      (text ≠ ['('] → startsWithChar '(' (formatLine ⟨LineType.parenthetical, text⟩) = true) := by
  by_cases hs : startsWithChar '(' text = true
  · obtain ⟨r, rfl⟩ : ∃ r, text = '(' :: r := by
      cases text with
      | nil => exact absurd hs (by decide)
      | cons c rest =>
        refine ⟨rest, ?_⟩
        rw [show c = '(' from by simpa [startsWithChar] using hs]
    by_cases he : endsWithChar ')' ('(' :: r) = true
    · have hf : formatLine ⟨LineType.parenthetical, '(' :: r⟩ = '(' :: r := by
        simp [formatLine, hs, he]
      rw [hf]
      exact ⟨he, fun _ => rfl⟩
    · have he' : endsWithChar ')' ('(' :: r) = false := by
        cases hx : endsWithChar ')' ('(' :: r)
        · rfl
        · exact absurd hx he
      have hf : formatLine ⟨LineType.parenthetical, '(' :: r⟩
          = ('(' :: r).dropLast ++ [')'] := by
        simp [formatLine, hs, he']
      rw [hf]
      refine ⟨endsWithChar_concat ')' _, fun hne => ?_⟩
      cases r with
      | nil => exact absurd rfl hne
      | cons y r' => rfl
  · have hs' : startsWithChar '(' text = false := by
      cases hx : startsWithChar '(' text
      · rfl
      · exact absurd hx hs
    have hend : endsWithChar ')' ('(' :: (text ++ [')'])) = true := by
      rw [show ('(' :: (text ++ [')'])) = ('(' :: text) ++ [')'] from rfl]
      exact endsWithChar_concat ')' _
    have hf : formatLine ⟨LineType.parenthetical, text⟩ = '(' :: (text ++ [')']) := by
      simp [formatLine, hs', hend]
    rw [hf]
    exact ⟨hend, fun _ => rfl⟩

/-- Witness for C8 amended at `text = "hello"`. -/
theorem parenthetical_repair_wraps_witness :
    endsWithChar ')' (formatLine ⟨LineType.parenthetical, "hello".toList⟩) = true ∧
      startsWithChar '(' (formatLine ⟨LineType.parenthetical, "hello".toList⟩) = true :=
  ⟨(parenthetical_repair_wraps ("hello".toList)).1,
    (parenthetical_repair_wraps ("hello".toList)).2 (by decide)⟩

/-- C9. `validateFountain` returns `{valid := false,
errors := ["Document is empty"]}` exactly when the input has no
non-whitespace character, and `{valid := true, errors := []}`
otherwise (it is a total function, so it never raises). -/
theorem validateFountain_spec (text : Str) :
    validateFountain text =
      if text.any (fun c => !(jsWs c)) then ⟨true, []⟩
      else ⟨false, ["Document is empty".toList]⟩ := by
  have hpt : ∀ l : Str, (!((trim l).isEmpty)) = l.any (fun c => !(jsWs c)) := by
    intro l
    rw [trim_isEmpty_eq_blank, blank_eq_not_any, Bool.not_not]
  have h1 : ((splitLines text).any fun l => !((trim l).isEmpty))
      = text.any (fun c => !(jsWs c)) := by
    calc ((splitLines text).any fun l => !((trim l).isEmpty))
        = (splitLines text).any (fun l => l.any (fun c => !(jsWs c))) := by
          simp only [hpt]
      _ = text.any (fun c => !(jsWs c)) := splitLines_any text
  simp only [validateFountain]
  rw [h1]
  cases h : text.any (fun c => !(jsWs c)) <;> simp

/-- C10. A nonempty line list always yields `pageCount ≥ 1` (even
with all-empty texts, via the minimum-1 wrap factor and the floor at 1),
and `pageCount = 0` occurs only for the empty list. -/
theorem pageCount_min_one (lines : List Line) :
    (lines ≠ [] → 1 ≤ (PageCount.calculatePageStats lines).pageCount) ∧
      ((PageCount.calculatePageStats lines).pageCount = 0 → lines = []) := by
  by_cases h : lines = []
  · subst h
    exact ⟨fun hne => absurd rfl hne, fun _ => rfl⟩
  · have hne : lines.isEmpty = false := by simpa [List.isEmpty_iff] using h
    have hval : (PageCount.calculatePageStats lines).pageCount
        = max 1 ((PageCount.jsRound
            ((lines.map PageCount.lineWeighted).sum / PageCount.LINES_PER_PAGE * 10) : ℚ) / 10) := by
      simp [PageCount.calculatePageStats, hne]
    constructor
    · intro _
      rw [hval]
      exact le_max_left 1 _
    · intro h0
      rw [hval] at h0
      have hge : (1 : ℚ) ≤ max 1 ((PageCount.jsRound
          ((lines.map PageCount.lineWeighted).sum / PageCount.LINES_PER_PAGE * 10) : ℚ) / 10) :=
        le_max_left 1 _
      rw [h0] at hge
      linarith

/-- Witness for C10 at a single empty-text action line. -/
theorem pageCount_min_one_witness :
    1 ≤ (PageCount.calculatePageStats [⟨LineType.action, []⟩]).pageCount :=
  (pageCount_min_one [⟨LineType.action, []⟩]).1 (by decide)

end Hazon
